import Mathlib

/-!
Shallow embedding of the Inception control-plane core (ryu/app/inception_*):
the VMAC addressing engine (`inception_util.py`), the DHCP relay
(`inception_dhcp.py`) and the cross-datacenter RPC surface
(`inception_rpc.py`), with theorems checking the specification's claims.

Python strings are embedded as `List Char`, Python ints as `Nat`/`Int`
(Python `%` on a positive modulus agrees with `Int.emod`), dictionaries as
association lists or total functions, and a bare `return` / raised
exception as `Option`/an explicit error constructor.
-/

/-! ## Addressing engine: src/ryu/app/inception_util.py -/

/-- One lowercase hex digit, as produced by Python's `"%x"` formatting. -/
def hexDigit (n : Nat) : Char :=
  if n < 10 then Char.ofNat (48 + n) else Char.ofNat (87 + n)

/-- Python `"%02x" % b` for `b < 256`: exactly two lowercase hex digits. -/
def byteToHex (b : Nat) : List Char :=
  [hexDigit (b / 16), hexDigit (b % 16)]

/-- Modelled from the spec: `SWITCH_MAXID` lives in `inception_conf`, whose
provided source does not contain it.  The spec gives switch ids a 16-bit
field with 0 reserved for "no switch" and range 1..SWITCH_MAXID, so the
modulus is 65535. -/
def SWITCH_MAXID : Int := 65535

/-- Modelled from the spec: `VM_MAXID` lives in `inception_conf`, whose
provided source does not contain it.  The spec gives vm ids one byte with
0 reserved ("00 is saved for switch"), so the modulus is 255. -/
def VM_MAXID : Int := 255

/-- `inception_util.generate_vm_id(vm_mac, dpid, conflict_record)`.
`hash` is Python's opaque string hash, passed as a parameter `pyhash`;
`conflict_record` is the per-switch table of already used vm ids, embedded
as a total boolean map (its construction is outside the provided sources).
Returns the id, the updated record, and whether the conflict log fired. -/
def generate_vm_id (pyhash : String → Int) (vm_mac : String) (dpid : String)
    (conflict_record : String → Nat → Bool) :
    Nat × (String → Nat → Bool) × Bool :=
  let vm_id := (pyhash vm_mac % VM_MAXID).toNat + 1
  if conflict_record dpid vm_id then
    (vm_id, conflict_record, true)
  else
    (vm_id, fun d i => if d = dpid ∧ i = vm_id then true else conflict_record d i, false)

/-- `inception_util.create_dc_vmac(dcenter)`: the bare `return` on
`dcenter > 65535` is `none`; otherwise `"%02x:%02x:00:00:00:00" % (hi, lo)`. -/
def create_dc_vmac (dcenter : Nat) : Option (List Char) :=
  if dcenter > 65535 then none
  else
    some (byteToHex ((dcenter >>> 8) &&& 0xff) ++ ':' :: byteToHex (dcenter &&& 0xff)
      ++ ":00:00:00:00".toList)

/-- `inception_util.get_dc_prefix(vmac)`: `vmac[:5]`. -/
def get_dc_prefix (vmac : List Char) : List Char := vmac.take 5

/-- `inception_util.get_swc_prefix(vmac)`: `vmac[:11]`. -/
def get_swc_prefix (vmac : List Char) : List Char := vmac.take 11

/-- `inception_util.create_swc_vmac(dcenter_vmac, dpid, conflict_record)`.
Returns the switch-level vmac, the updated conflict record and whether the
conflict log fired.  The vmac is `':'.join((dcenter_prefix, switch_suffix))`
with `switch_suffix = "%02x:%02x:00:00" % (hi, lo)`. -/
def create_swc_vmac (pyhash : String → Int) (dcenter_vmac : List Char) (dpid : String)
    (conflict_record : Nat → Bool) :
    List Char × (Nat → Bool) × Bool :=
  let dcenter_pfx := get_dc_prefix dcenter_vmac
  let switch_num := (pyhash dpid % SWITCH_MAXID).toNat + 1
  let warned := conflict_record switch_num
  let record := if warned then conflict_record
    else fun i => if i = switch_num then true else conflict_record i
  ( dcenter_pfx ++ ':' :: byteToHex ((switch_num >>> 8) &&& 0xff)
      ++ ':' :: byteToHex (switch_num &&& 0xff) ++ ":00:00".toList,
    record, warned)

/-- `inception_util.create_vm_vmac(switch_vmac, vm_id)`:
`':'.join((switch_prefix, "%02x" % (vm_id & 0xff), '00'))`. -/
def create_vm_vmac (switch_vmac : List Char) (vm_id : Nat) : List Char :=
  get_swc_prefix switch_vmac ++ ':' :: byteToHex (vm_id &&& 0xff) ++ ':' :: "00".toList

/-! ## Helper lemmas on bytes and hex rendering -/

theorem and255_eq_mod (n : Nat) : n &&& 255 = n % 256 := by
  rw [show (255 : Nat) = 2 ^ 8 - 1 by norm_num, Nat.and_pow_two_sub_one_eq_mod]

theorem shiftRight8_eq_div (n : Nat) : n >>> 8 = n / 256 := by
  simp [Nat.shiftRight_eq_div_pow]

theorem hexDigit_inj : ∀ a < 16, ∀ b < 16, hexDigit a = hexDigit b → a = b := by decide

theorem byteToHex_inj {a b : Nat} (ha : a < 256) (hb : b < 256)
    (h : byteToHex a = byteToHex b) : a = b := by
  simp only [byteToHex, List.cons.injEq, and_true] at h
  have h1 := hexDigit_inj (a / 16) (by omega) (b / 16) (by omega) h.1
  have h2 := hexDigit_inj (a % 16) (by omega) (b % 16) (by omega) h.2
  omega

theorem create_dc_vmac_eq (d : Nat) (hd : d ≤ 65535) :
    create_dc_vmac d =
      some (byteToHex ((d >>> 8) &&& 0xff) ++ ':' :: byteToHex (d &&& 0xff)
        ++ ":00:00:00:00".toList) := by
  rw [create_dc_vmac, if_neg (by omega)]

/-- The two bytes `create_dc_vmac` renders are `d / 256` and `d % 256`. -/
theorem dc_bytes (d : Nat) (hd : d ≤ 65535) :
    (d >>> 8) &&& 0xff = d / 256 ∧ d &&& 0xff = d % 256 := by
  constructor
  · rw [shiftRight8_eq_div, and255_eq_mod]
    omega
  · exact and255_eq_mod d

/-- Taking 11 characters of `p ++ ':' :: bh ++ ':' :: bl ++ s` with `p` of
length 5 and `bh`, `bl` of length 2 yields everything before `s`. -/
theorem take11_shape (p bh bl s : List Char) (hp : p.length = 5)
    (hbh : bh.length = 2) (hbl : bl.length = 2) :
    List.take 11 (p ++ ':' :: bh ++ ':' :: bl ++ s) = p ++ ':' :: bh ++ ':' :: bl := by
  rw [List.take_append_eq_append_take,
    List.take_of_length_le (by simp [hp, hbh, hbl])]
  simp [hp, hbh, hbl]

/-! ## Claim theorems: addressing engine -/

/-- C1: for every dcenter in [0, 65535], decoding the datacenter prefix of
`create_dc_vmac dcenter` inverts the encoding: the encoded VMAC is exactly
its own dc prefix followed by the `:00:00:00:00` suffix, and the prefix
determines the datacenter id (so the original is recovered); in particular
`create_dc_vmac 513` has prefix `02:01`.  Likewise `get_swc_prefix` applied
to an encoded switch-level VMAC returns exactly the switch prefix
(datacenter prefix plus switch-id bytes) the VMAC was built from. -/
theorem spec_C1 :
    (∀ d : Nat, d ≤ 65535 → ∃ v, create_dc_vmac d = some v ∧
      v = get_dc_prefix v ++ ":00:00:00:00".toList) ∧
    (∀ d d' : Nat, ∀ v v' : List Char, d ≤ 65535 → d' ≤ 65535 →
      create_dc_vmac d = some v → create_dc_vmac d' = some v' →
      get_dc_prefix v = get_dc_prefix v' → d = d') ∧
    (∃ v, create_dc_vmac 513 = some v ∧ get_dc_prefix v = "02:01".toList) ∧
    (∀ (pyhash : String → Int) (dcv : List Char) (dpid : String) (rec : Nat → Bool),
      5 ≤ dcv.length →
      ( create_swc_vmac pyhash dcv dpid rec).1 =
        get_swc_prefix ( create_swc_vmac pyhash dcv dpid rec).1 ++ ":00:00".toList) := by
  refine ⟨?_, ?_, ?_, ?_⟩
  · intro d hd
    exact ⟨_, create_dc_vmac_eq d hd, rfl⟩
  · intro d d' v v' hd hd' hv hv' hpfx
    rw [create_dc_vmac_eq d hd, Option.some_inj] at hv
    rw [create_dc_vmac_eq d' hd', Option.some_inj] at hv'
    subst hv hv'
    have h5 : (byteToHex ((d >>> 8) &&& 0xff) ++ ':' :: byteToHex (d &&& 0xff) : List Char)
        = byteToHex ((d' >>> 8) &&& 0xff) ++ ':' :: byteToHex (d' &&& 0xff) := hpfx
    obtain ⟨e1, e2⟩ := dc_bytes d hd
    obtain ⟨e1', e2'⟩ := dc_bytes d' hd'
    rw [e1, e2, e1', e2'] at h5
    simp only [byteToHex, List.cons_append, List.nil_append, List.cons.injEq, and_true,
      true_and] at h5
    have n1 := hexDigit_inj _ (by omega) _ (by omega) h5.1
    have n2 := hexDigit_inj _ (by omega) _ (by omega) h5.2.1
    have n3 := hexDigit_inj _ (by omega) _ (by omega) h5.2.2.1
    have n4 := hexDigit_inj _ (by omega) _ (by omega) h5.2.2.2
    omega
  · exact ⟨"02:01:00:00:00:00".toList, by decide, by decide⟩
  · intro pyhash dcv dpid rec hlen5
    have hlen : (dcv.take 5).length = 5 := by
      rw [List.length_take]
      omega
    have hshape : ( create_swc_vmac pyhash dcv dpid rec).1 =
        dcv.take 5 ++ ':' :: byteToHex ((((pyhash dpid % SWITCH_MAXID).toNat + 1) >>> 8) &&& 0xff)
          ++ ':' :: byteToHex (((pyhash dpid % SWITCH_MAXID).toNat + 1) &&& 0xff)
          ++ ":00:00".toList := rfl
    rw [hshape, get_swc_prefix,
      take11_shape _ _ _ _ hlen (by simp [byteToHex]) (by simp [byteToHex])]

/-- C1 witness: the datacenter round trip at the concrete id 513. -/
theorem spec_C1_witness :
    (∃ v, create_dc_vmac 513 = some v ∧ v = get_dc_prefix v ++ ":00:00:00:00".toList) ∧
    ( create_swc_vmac (fun _ => 2) ("02:01:00:00:00:00".toList) "dpid-a" (fun _ => false)).1 =
      get_swc_prefix
        (( create_swc_vmac (fun _ => 2) ("02:01:00:00:00:00".toList) "dpid-a"
            (fun _ => false)).1) ++ ":00:00".toList :=
  ⟨spec_C1.1 513 (by norm_num),
   spec_C1.2.2.2 (fun _ => 2) ("02:01:00:00:00:00".toList) "dpid-a" (fun _ => false)
     (by decide)⟩

/-- C2: `create_dc_vmac` fails (Python's bare `return`, i.e. `none`) exactly
when the datacenter id does not fit in 16 bits; otherwise it
deterministically returns the VMAC `hi:lo:00:00:00:00` where
`hi * 256 + lo = dcenter`. -/
theorem spec_C2 :
    (∀ d : Nat, d > 65535 → create_dc_vmac d = none) ∧
    (∀ d : Nat, d ≤ 65535 → ∃ hi lo : Nat, hi < 256 ∧ lo < 256 ∧ hi * 256 + lo = d ∧
      create_dc_vmac d = some (byteToHex hi ++ ':' :: byteToHex lo
        ++ ":00:00:00:00".toList)) := by
  constructor
  · intro d hd
    rw [create_dc_vmac, if_pos hd]
  · intro d hd
    obtain ⟨e1, e2⟩ := dc_bytes d hd
    refine ⟨d / 256, d % 256, by omega, by omega, by omega, ?_⟩
    rw [create_dc_vmac_eq d hd, e1, e2]

/-- C2 witness: failure at 65536, success with the byte decomposition at 513. -/
theorem spec_C2_witness :
    create_dc_vmac 65536 = none ∧
    (∃ hi lo : Nat, hi < 256 ∧ lo < 256 ∧ hi * 256 + lo = 513 ∧
      create_dc_vmac 513 = some (byteToHex hi ++ ':' :: byteToHex lo
        ++ ":00:00:00:00".toList)) :=
  ⟨spec_C2.1 65536 (by norm_num), spec_C2.2 513 (by norm_num)⟩

/-- C6: ids are `hash mod MAXID + 1`, always in `1..MAXID` (never 0); a
colliding id already present in the conflict record is logged and still
returned with the record unchanged; an absent id is marked used and all
other entries of the record are untouched.  For the switch encoder the
returned VMAC does not depend on the conflict record at all. -/
theorem spec_C6 :
    (∀ (pyhash : String → Int) (vm_mac dpid : String) (rec : String → Nat → Bool),
      (generate_vm_id pyhash vm_mac dpid rec).1 = (pyhash vm_mac % VM_MAXID).toNat + 1 ∧
      1 ≤ (generate_vm_id pyhash vm_mac dpid rec).1 ∧
      ((generate_vm_id pyhash vm_mac dpid rec).1 : Int) ≤ VM_MAXID ∧
      (rec dpid ((pyhash vm_mac % VM_MAXID).toNat + 1) = true →
        (generate_vm_id pyhash vm_mac dpid rec).2.1 = rec ∧
        (generate_vm_id pyhash vm_mac dpid rec).2.2 = true) ∧
      (rec dpid ((pyhash vm_mac % VM_MAXID).toNat + 1) = false →
        (generate_vm_id pyhash vm_mac dpid rec).2.2 = false ∧
        (generate_vm_id pyhash vm_mac dpid rec).2.1 dpid
          ((pyhash vm_mac % VM_MAXID).toNat + 1) = true ∧
        ∀ d i, ¬(d = dpid ∧ i = (pyhash vm_mac % VM_MAXID).toNat + 1) →
          (generate_vm_id pyhash vm_mac dpid rec).2.1 d i = rec d i)) ∧
    (∀ (pyhash : String → Int) (dcv : List Char) (dpid : String) (rec : Nat → Bool),
      1 ≤ (pyhash dpid % SWITCH_MAXID).toNat + 1 ∧
      (((pyhash dpid % SWITCH_MAXID).toNat + 1 : Int)) ≤ SWITCH_MAXID ∧
      (∀ rec' : Nat → Bool,
        ( create_swc_vmac pyhash dcv dpid rec).1 = ( create_swc_vmac pyhash dcv dpid rec').1) ∧
      (rec ((pyhash dpid % SWITCH_MAXID).toNat + 1) = true →
        ( create_swc_vmac pyhash dcv dpid rec).2.1 = rec ∧
        ( create_swc_vmac pyhash dcv dpid rec).2.2 = true) ∧
      (rec ((pyhash dpid % SWITCH_MAXID).toNat + 1) = false →
        ( create_swc_vmac pyhash dcv dpid rec).2.2 = false ∧
        ( create_swc_vmac pyhash dcv dpid rec).2.1
          ((pyhash dpid % SWITCH_MAXID).toNat + 1) = true ∧
        ∀ i, i ≠ (pyhash dpid % SWITCH_MAXID).toNat + 1 →
          ( create_swc_vmac pyhash dcv dpid rec).2.1 i = rec i)) := by
  constructor
  · intro pyhash vm_mac dpid rec
    have hm : (0 : Int) < VM_MAXID := by norm_num [VM_MAXID]
    have hlt := Int.emod_lt_of_pos (pyhash vm_mac) hm
    have hge := Int.emod_nonneg (pyhash vm_mac) (show VM_MAXID ≠ 0 by norm_num [VM_MAXID])
    refine ⟨?_, ?_, ?_, ?_, ?_⟩
    · by_cases hc : rec dpid ((pyhash vm_mac % VM_MAXID).toNat + 1) <;>
        simp [generate_vm_id, hc]
    · by_cases hc : rec dpid ((pyhash vm_mac % VM_MAXID).toNat + 1) <;>
        simp [generate_vm_id, hc]
    · by_cases hc : rec dpid ((pyhash vm_mac % VM_MAXID).toNat + 1) <;>
        simp [generate_vm_id, hc] <;> omega
    · intro hc
      simp [generate_vm_id, hc]
    · intro hc
      refine ⟨by simp [generate_vm_id, hc], by simp [generate_vm_id, hc], ?_⟩
      intro d i hdi
      simp only [generate_vm_id, hc, Bool.false_eq_true, if_false]
      simp [hdi]
  · intro pyhash dcv dpid rec
    have hm : (0 : Int) < SWITCH_MAXID := by norm_num [SWITCH_MAXID]
    have hlt := Int.emod_lt_of_pos (pyhash dpid) hm
    have hge := Int.emod_nonneg (pyhash dpid)
      (show SWITCH_MAXID ≠ 0 by norm_num [SWITCH_MAXID])
    refine ⟨by omega, by omega, fun rec' => rfl, ?_, ?_⟩
    · intro hc
      simp [create_swc_vmac, hc]
    · intro hc
      refine ⟨by simp [create_swc_vmac, hc], by simp [create_swc_vmac, hc], ?_⟩
      intro i hi
      simp only [create_swc_vmac, hc, Bool.false_eq_true, if_false]
      simp [hi]

/-- C6 witness: a concrete hash and an empty conflict record; the vm id is
marked used and no conflict is logged. -/
theorem spec_C6_witness :
    (generate_vm_id (fun s => (s.length : Int)) "fa:16:3e:00:00:01" "00a"
        (fun _ _ => false)).2.2 = false ∧
    (generate_vm_id (fun s => (s.length : Int)) "fa:16:3e:00:00:01" "00a"
        (fun _ _ => false)).2.1 "00a"
      (((fun (s : String) => (s.length : Int)) "fa:16:3e:00:00:01" % VM_MAXID).toNat + 1)
      = true := by
  have h := (spec_C6.1 (fun s => (s.length : Int)) "fa:16:3e:00:00:01" "00a"
    (fun _ _ => false)).2.2.2.2 rfl
  exact ⟨h.1, h.2.1⟩

/-! ## DHCP relay: src/ryu/app/inception_dhcp.py -/

def DHCP_SERVER_PORT : Nat := 67

def DHCP_CLIENT_PORT : Nat := 68

/-- `ryu.ofproto.ether.ETH_TYPE_IP` (external constant). -/
def ETH_TYPE_IP : Nat := 0x0800

/-- `ryu.ofproto.inet.IPPROTO_UDP` (external constant). -/
def IPPROTO_UDP : Nat := 17

/-- The ZooKeeper nodes the DHCP module touches.  `DHCP_SWITCH_DPID` and
`DHCP_SWITCH_PORT` hold strings, empty (`""`, falsy in Python) until a
server is registered; a child of `MAC_TO_DPID_PORT` holds the serialized
`(dpid, port)` of a MAC, `none` when the node does not exist (a `zk.get` on
it raises `NoNodeError`). -/
structure ZkDhcp where
  dhcp_switch_dpid : String
  dhcp_switch_port : String
  mac_to_dpid_port : String → Option String

/-- `InceptionDhcp.update_server(dpid, port)`.  Returns the new store and
whether the duplicate-server warning was logged (the call is otherwise
ignored in that case). -/
def update_server (zk : ZkDhcp) (dpid : String) (port : Nat) : ZkDhcp × Bool :=
  if zk.dhcp_switch_port ≠ "" ∧ zk.dhcp_switch_dpid ≠ "" then
    (zk, true)
  else
    ({ zk with dhcp_switch_dpid := dpid, dhcp_switch_port := toString port }, false)

/-- The parsed headers of an inbound packet event (`ryu.lib.packet` parsing
is the external library's job) together with the raw payload `msg.data`. -/
structure DhcpEvent where
  ethertype : Nat
  ipProto : Nat
  udpSrcPort : Nat
  ethDst : String
  data : String

/-- A southbound `OFPPacketOut` injection of `data` to switch `dpid`, out
`port`. -/
structure Injection where
  dpid : String
  port : String
  data : String
deriving DecidableEq, Repr

/-- What a call to `InceptionDhcp.handle` does: a normal return with the
issued packet injections, or an uncaught Python exception propagating out
of the handler. -/
inductive HandleResult where
  | ok (injections : List Injection)
  | raised (exc : String)
deriving DecidableEq, Repr

/-- Splitting a character list on `,`, the comma kept in neither part:
Python's `"a,b".split(',')`. -/
def split_comma : List Char → List (List Char)
  | [] => [[]]
  | c :: t =>
    if c = ',' then [] :: split_comma t
    else
      match split_comma t with
      | [] => [[c]]
      | h :: r => (c :: h) :: r

/-- Modelled from the spec: `zk_data_to_tuple` is imported from
`inception_util` but absent from the provided source file; the directory
stores tuples joined on a separator (`tuple_to_str`/`str_to_tuple` in the
same file use `,`), so it splits the stored string on `,`. -/
def zk_data_to_tuple (s : String) : List String :=
  (split_comma s.toList).map (fun l => String.mk l)

/-- `InceptionDhcp.handle(event)`: ethertype/protocol/port filtering, the
unbound-server check, then injection towards the server switch (client
packets) or towards the client's recorded position (server packets).  The
position lookup `zk.get(MAC_TO_DPID_PORT/dst)` is not guarded by any
`try`, so a missing node raises `NoNodeError` out of the handler; a stored
value that is not a 2-tuple would raise `ValueError` at unpacking. -/
def handle (zk : ZkDhcp) (ev : DhcpEvent) : HandleResult :=
  if ev.ethertype ≠ ETH_TYPE_IP then .ok []
  else if ev.ipProto ≠ IPPROTO_UDP then .ok []
  else if ev.udpSrcPort ≠ DHCP_CLIENT_PORT ∧ ev.udpSrcPort ≠ DHCP_SERVER_PORT then .ok []
  else if zk.dhcp_switch_dpid = "" ∨ zk.dhcp_switch_port = "" then .ok []
  else if ev.udpSrcPort = DHCP_CLIENT_PORT then
    .ok [⟨zk.dhcp_switch_dpid, zk.dhcp_switch_port, ev.data⟩]
  else
    match zk.mac_to_dpid_port ev.ethDst with
    | none => .raised "NoNodeError"
    | some stored =>
      match zk_data_to_tuple stored with
      | [dpid, port] => .ok [⟨dpid, port, ev.data⟩]
      | _ => .raised "ValueError"

/-! ## Claim theorems: DHCP relay -/

/-- C3: `update_server` is first-call-wins.  Starting from an unbound store,
`Bind(A, 1)` registers (A, "1") without warning; a later `Bind(B, 2)` only
logs the duplicate-server warning and leaves the store unchanged, so a
subsequent client-side `Relay` still injects to (A, "1"). -/
theorem spec_C3 (zk0 : ZkDhcp) (A B : String) (p2 : Nat)
    (h1 : zk0.dhcp_switch_dpid = "") (h2 : zk0.dhcp_switch_port = "")
    (hA : A ≠ "") :
    (update_server zk0 A 1).2 = false ∧
    (update_server zk0 A 1).1.dhcp_switch_dpid = A ∧
    (update_server zk0 A 1).1.dhcp_switch_port = "1" ∧
    (update_server (update_server zk0 A 1).1 B p2).2 = true ∧
    (update_server (update_server zk0 A 1).1 B p2).1 = (update_server zk0 A 1).1 ∧
    (∀ ev : DhcpEvent, ev.ethertype = ETH_TYPE_IP → ev.ipProto = IPPROTO_UDP →
      ev.udpSrcPort = DHCP_CLIENT_PORT →
      handle (update_server (update_server zk0 A 1).1 B p2).1 ev =
        HandleResult.ok [⟨A, "1", ev.data⟩]) := by
  obtain ⟨d0, p0, m0⟩ := zk0
  simp only at h1 h2
  subst h1 h2
  have hz1 : update_server ⟨"", "", m0⟩ A 1 =
      (⟨A, "1", m0⟩, false) := by
    rw [update_server]
    simp
    rfl
  rw [hz1]
  have hone : ("1" : String) ≠ "" := by decide
  have hz2 : update_server ⟨A, "1", m0⟩ B p2 = (⟨A, "1", m0⟩, true) := by
    rw [update_server, if_pos ⟨hone, hA⟩]
  rw [hz2]
  refine ⟨rfl, rfl, rfl, rfl, rfl, ?_⟩
  intro ev he hp hs
  rw [handle]
  simp [he, hp, hs, ETH_TYPE_IP, IPPROTO_UDP, DHCP_CLIENT_PORT, DHCP_SERVER_PORT, hA]

/-- C3 witness: two concrete binds; the second warns, changes nothing, and a
client DHCP packet is still injected to the first binding. -/
theorem spec_C3_witness :
    (update_server (update_server ⟨"", "", fun _ => none⟩ "00a" 1).1 "00b" 2).2 = true ∧
    (update_server (update_server ⟨"", "", fun _ => none⟩ "00a" 1).1 "00b" 2).1 =
      (update_server ⟨"", "", fun _ => none⟩ "00a" 1).1 ∧
    handle (update_server (update_server ⟨"", "", fun _ => none⟩ "00a" 1).1 "00b" 2).1
        ⟨ETH_TYPE_IP, IPPROTO_UDP, DHCP_CLIENT_PORT, "m", "payload"⟩ =
      HandleResult.ok [⟨"00a", "1", "payload"⟩] := by
  have h := spec_C3 ⟨"", "", fun _ => none⟩ "00a" "00b" 2 rfl rfl (by decide)
  exact ⟨h.2.2.2.1, h.2.2.2.2.1, h.2.2.2.2.2 _ rfl rfl rfl⟩

/-- C8: a `Relay` (`handle`) call while no DHCP server is bound (either
stored field still empty) performs zero southbound injections, whatever the
packet. -/
theorem spec_C8 (zk : ZkDhcp) (ev : DhcpEvent)
    (h : zk.dhcp_switch_dpid = "" ∨ zk.dhcp_switch_port = "") :
    handle zk ev = HandleResult.ok [] := by
  unfold handle
  by_cases h1 : ev.ethertype ≠ ETH_TYPE_IP
  · simp [h1]
  · by_cases h2 : ev.ipProto ≠ IPPROTO_UDP
    · simp [h1, h2]
    · by_cases h3 : ev.udpSrcPort ≠ DHCP_CLIENT_PORT ∧ ev.udpSrcPort ≠ DHCP_SERVER_PORT
      · simp [h1, h2, h3]
      · simp [h1, h2, h3, h]

/-- C8 witness: a client DHCP packet against the initial, unbound store. -/
theorem spec_C8_witness :
    handle ⟨"", "", fun _ => none⟩ ⟨ETH_TYPE_IP, IPPROTO_UDP, DHCP_CLIENT_PORT, "m", "D"⟩
      = HandleResult.ok [] :=
  spec_C8 ⟨"", "", fun _ => none⟩ ⟨ETH_TYPE_IP, IPPROTO_UDP, DHCP_CLIENT_PORT, "m", "D"⟩
    (Or.inl rfl)

/-- C10: the module filters non-IP, non-UDP and non-DHCP-port packets at its
own entry point: such an event returns with zero southbound calls and the
result does not depend on the binding or directory state at all. -/
theorem spec_C10 (zk zk' : ZkDhcp) (ev : DhcpEvent)
    (h : ev.ethertype ≠ ETH_TYPE_IP ∨ ev.ipProto ≠ IPPROTO_UDP ∨
      (ev.udpSrcPort ≠ DHCP_CLIENT_PORT ∧ ev.udpSrcPort ≠ DHCP_SERVER_PORT)) :
    handle zk ev = HandleResult.ok [] ∧ handle zk ev = handle zk' ev := by
  have hok : ∀ z : ZkDhcp, handle z ev = HandleResult.ok [] := by
    intro z
    unfold handle
    by_cases h1 : ev.ethertype ≠ ETH_TYPE_IP
    · simp [h1]
    · rcases h with h | h | h
      · exact absurd h h1
      · simp [h1, h]
      · by_cases h2 : ev.ipProto ≠ IPPROTO_UDP
        · simp [h1, h2]
        · simp [h1, h2, h]
  exact ⟨hok zk, (hok zk).trans (hok zk').symm⟩

/-- C10 witness: a DNS-port UDP packet (port 53) is dropped, identically on
two very different states. -/
theorem spec_C10_witness :
    handle ⟨"00a", "1", fun _ => some "00b,2"⟩ ⟨ETH_TYPE_IP, IPPROTO_UDP, 53, "m", "D"⟩
      = HandleResult.ok [] ∧
    handle ⟨"00a", "1", fun _ => some "00b,2"⟩ ⟨ETH_TYPE_IP, IPPROTO_UDP, 53, "m", "D"⟩
      = handle ⟨"", "", fun _ => none⟩ ⟨ETH_TYPE_IP, IPPROTO_UDP, 53, "m", "D"⟩ :=
  spec_C10 ⟨"00a", "1", fun _ => some "00b,2"⟩ ⟨"", "", fun _ => none⟩
    ⟨ETH_TYPE_IP, IPPROTO_UDP, 53, "m", "D"⟩
    (Or.inr (Or.inr ⟨by decide, by decide⟩))

/-- C4 counterexample: with a server bound and no recorded position for the
packet's destination MAC, a server-port `Relay` does not log-and-drop: the
unguarded `zk.get` raises `NoNodeError` out of the handler. -/
theorem spec_C4_cex :
    handle ⟨"00a", "1", fun _ => none⟩
        ⟨ETH_TYPE_IP, IPPROTO_UDP, DHCP_SERVER_PORT, "de:ad", "D"⟩
      = HandleResult.raised "NoNodeError" ∧
    handle ⟨"00a", "1", fun _ => none⟩
        ⟨ETH_TYPE_IP, IPPROTO_UDP, DHCP_SERVER_PORT, "de:ad", "D"⟩
      ≠ HandleResult.ok [] := by
  constructor
  · rfl
  · decide

/-- C4 (amended): on a server-port packet with a bound server, a position
miss for `ethDst` makes the unguarded lookup raise `NoNodeError` out of the
handler — no southbound injection is issued, but the packet is not
gracefully logged and dropped; a successful lookup injects the payload to
the stored (dpid, port). -/
theorem spec_C4 (zk : ZkDhcp) (ev : DhcpEvent)
    (h1 : ev.ethertype = ETH_TYPE_IP) (h2 : ev.ipProto = IPPROTO_UDP)
    (h3 : ev.udpSrcPort = DHCP_SERVER_PORT)
    (h4 : zk.dhcp_switch_dpid ≠ "") (h5 : zk.dhcp_switch_port ≠ "") :
    (zk.mac_to_dpid_port ev.ethDst = none →
      handle zk ev = HandleResult.raised "NoNodeError") ∧
    (∀ stored dpid port : String, zk.mac_to_dpid_port ev.ethDst = some stored →
      zk_data_to_tuple stored = [dpid, port] →
      handle zk ev = HandleResult.ok [⟨dpid, port, ev.data⟩]) := by
  constructor
  · intro hm
    rw [handle]
    simp [h1, h2, h3, h4, h5, hm, ETH_TYPE_IP, IPPROTO_UDP, DHCP_CLIENT_PORT,
      DHCP_SERVER_PORT]
  · intro stored dpid port hm hparse
    rw [handle]
    simp [h1, h2, h3, h4, h5, hm, hparse, ETH_TYPE_IP, IPPROTO_UDP, DHCP_CLIENT_PORT,
      DHCP_SERVER_PORT]

/-- C4 witness: the miss raises; a hit on a stored "00b,2" injects to
("00b", "2"). -/
theorem spec_C4_witness :
    handle ⟨"00a", "1", fun _ => none⟩
        ⟨ETH_TYPE_IP, IPPROTO_UDP, DHCP_SERVER_PORT, "cl", "D"⟩
      = HandleResult.raised "NoNodeError" ∧
    handle ⟨"00a", "1", fun m => if m = "cl" then some "00b,2" else none⟩
        ⟨ETH_TYPE_IP, IPPROTO_UDP, DHCP_SERVER_PORT, "cl", "D"⟩
      = HandleResult.ok [⟨"00b", "2", "D"⟩] :=
  ⟨(spec_C4 ⟨"00a", "1", fun _ => none⟩
      ⟨ETH_TYPE_IP, IPPROTO_UDP, DHCP_SERVER_PORT, "cl", "D"⟩
      rfl rfl rfl (by decide) (by decide)).1 rfl,
   (spec_C4 ⟨"00a", "1", fun m => if m = "cl" then some "00b,2" else none⟩
      ⟨ETH_TYPE_IP, IPPROTO_UDP, DHCP_SERVER_PORT, "cl", "D"⟩
      rfl rfl rfl (by decide) (by decide)).2 "00b,2" "00b" "2" (by decide) (by decide)⟩

/-! ## RPC surface: src/ryu/app/inception_rpc.py -/

/-- A directed ARP reply as built by `send_arp_reply(src_ip, src_mac,
dst_ip, dst_mac)` (the actual frame emission is the ARP relay's job). -/
structure ArpReply where
  src_ip : String
  src_mac : String
  dst_ip : String
  dst_mac : String
deriving DecidableEq, Repr

/-- Association-list lookup for the pending-queries dictionary. -/
def qlookup : List (String × List String) → String → Option (List String)
  | [], _ => none
  | (k, v) :: t, key => if k = key then some v else qlookup t key

/-- Python's `del d[key]`: the key is gone afterwards. -/
def qdelete (l : List (String × List String)) (key : String) :
    List (String × List String) :=
  l.filter (fun p => p.1 != key)

/-- The shared state `send_arp_update` reads: `vmac_to_queries` (the
pending ARP queries, a dictionary constructed in the main inception module,
absent from the provided sources; per the spec, PendingArpQueries maps an
old vmac to the set of querier MACs) and `mac_to_ip` (the MAC→IP cache,
likewise owned by the main module, embedded as a total map). -/
structure ArpState where
  vmac_to_queries : List (String × List String)
  mac_to_ip : String → String

/-- `InceptionRpc.send_arp_update(mac, vmac_old, vmac_new)`: one
`send_arp_reply(ip, vmac_new, ip_query, mac_query)` per recorded querier,
then `del self.vmac_to_queries[vmac_old]`. -/
def send_arp_update (st : ArpState) (mac vmac_old vmac_new : String) :
    List ArpReply × ArpState :=
  let queries := (qlookup st.vmac_to_queries vmac_old).getD []
  let replies := queries.map (fun mac_query =>
    { src_ip := st.mac_to_ip mac, src_mac := vmac_new,
      dst_ip := st.mac_to_ip mac_query, dst_mac := mac_query })
  (replies, { st with vmac_to_queries := qdelete st.vmac_to_queries vmac_old })

/-- A southbound command of the migration coordinator.  Modelled from the
spec: `inception.set_local_flow` lives in the main module, absent from the
provided sources; per the spec it reprograms one switch so traffic to
`vmac_old` is rewritten to `vmac_new` and forwarded out `fwd_port`. -/
structure RewriteFlow where
  dpid : String
  vmac_old : String
  vmac_new : String
  fwd_port : String
  flag : Bool
deriving DecidableEq, Repr

/-- The state `redirect_local_flow` reads from the main inception module:
the local datacenter id, the gateway switch, and the connection tables. -/
structure RpcState where
  dcenter : String
  gateway : String
  dpid_to_ip : String → String
  dpid_to_conns : String → String → String

/-- `InceptionRpc.redirect_local_flow(dpid_old, vmac_old, vmac_new,
dcenter_new)`: returns the southbound flow commands issued and whether the
opened transaction was committed.  The early return on
`dcenter_new == self.inception.dcenter` skips both. -/
def redirect_local_flow (st : RpcState) (dpid_old vmac_old vmac_new dcenter_new : String) :
    List RewriteFlow × Bool :=
  if dcenter_new = st.dcenter then ([], false)
  else
    let gateway_ip := st.dpid_to_ip st.gateway
    let fwd_port := st.dpid_to_conns dpid_old gateway_ip
    ([⟨dpid_old, vmac_old, vmac_new, fwd_port, false⟩], true)

/-! ## Claim theorems: RPC surface -/

theorem qlookup_qdelete (l : List (String × List String)) (k : String) :
    qlookup (qdelete l k) k = none := by
  induction l with
  | nil => rfl
  | cons p t ih =>
    by_cases hp : p.1 = k
    · simpa [qdelete, List.filter_cons, hp] using ih
    · simpa [qdelete, List.filter_cons, qlookup, hp] using ih

theorem replies_count_zero (qs : List String) (q : String) (hq : q ∉ qs)
    (f : String → ArpReply) (hf : ∀ x, (f x).dst_mac = x) :
    ((qs.map f).filter (fun r => r.dst_mac == q)).length = 0 := by
  induction qs with
  | nil => rfl
  | cons a t ih =>
    have ha : a ≠ q := fun h => hq (h ▸ List.mem_cons_self a t)
    rw [List.map_cons, List.filter_cons]
    simp only [hf, beq_iff_eq, ha, if_false]
    exact ih (fun h => hq (List.mem_cons_of_mem a h))

theorem replies_count_one (qs : List String) (q : String) (hnd : qs.Nodup)
    (hq : q ∈ qs) (f : String → ArpReply) (hf : ∀ x, (f x).dst_mac = x) :
    ((qs.map f).filter (fun r => r.dst_mac == q)).length = 1 := by
  induction qs with
  | nil => simp at hq
  | cons a t ih =>
    rw [List.map_cons, List.filter_cons]
    rcases List.mem_cons.mp hq with rfl | hq'
    · simp only [hf, beq_iff_eq, eq_self_iff_true, if_true, List.length_cons]
      rw [replies_count_zero t q (List.nodup_cons.mp hnd).1 f hf]
    · have ha : a ≠ q := by
        intro h
        exact (List.nodup_cons.mp hnd).1 (h ▸ hq')
      simp only [hf, beq_iff_eq, ha, if_false]
      exact ih (List.nodup_cons.mp hnd).2 hq'

/-- C5: with queriers `qs` recorded under `vmac_old`, `send_arp_update`
sends per recorded querier exactly one reply — advertising `vmac_new` as
the MAC of the migrated guest's cached IP, addressed to the querier's own
cached IP — and afterwards the `vmac_old` entry is entirely absent. -/
theorem spec_C5 (st : ArpState) (mac vmac_old vmac_new : String)
    (qs : List String) (hq : qlookup st.vmac_to_queries vmac_old = some qs)
    (hnd : qs.Nodup) :
    (send_arp_update st mac vmac_old vmac_new).1 =
      qs.map (fun mac_query =>
        ({ src_ip := st.mac_to_ip mac, src_mac := vmac_new,
           dst_ip := st.mac_to_ip mac_query, dst_mac := mac_query } : ArpReply)) ∧
    (∀ q ∈ qs,
      ((send_arp_update st mac vmac_old vmac_new).1.filter
        (fun r => r.dst_mac == q)).length = 1) ∧
    qlookup (send_arp_update st mac vmac_old vmac_new).2.vmac_to_queries vmac_old
      = none := by
  have hrep : (send_arp_update st mac vmac_old vmac_new).1 =
      qs.map (fun mac_query =>
        ({ src_ip := st.mac_to_ip mac, src_mac := vmac_new,
           dst_ip := st.mac_to_ip mac_query, dst_mac := mac_query } : ArpReply)) := by
    simp [send_arp_update, hq]
  refine ⟨hrep, ?_, ?_⟩
  · intro q hqq
    rw [hrep]
    exact replies_count_one qs q hnd hqq _ (fun x => rfl)
  · exact qlookup_qdelete _ _

/-- C5 witness: two queriers recorded under "vo"; "q1" gets exactly one
reply and the "vo" entry is gone afterwards. -/
theorem spec_C5_witness :
    ((send_arp_update ⟨[("vo", ["q1", "q2"])], fun m => m ++ "-ip"⟩
        "mm" "vo" "vn").1.filter (fun r => r.dst_mac == "q1")).length = 1 ∧
    qlookup (send_arp_update ⟨[("vo", ["q1", "q2"])], fun m => m ++ "-ip"⟩
        "mm" "vo" "vn").2.vmac_to_queries "vo" = none := by
  have h := spec_C5 ⟨[("vo", ["q1", "q2"])], fun m => m ++ "-ip"⟩
    "mm" "vo" "vn" ["q1", "q2"] (by decide) (by decide)
  exact ⟨h.2.1 "q1" (by decide), h.2.2⟩

/-- C7: a `redirect_local_flow` call whose `dcenter_new` equals the local
datacenter id is a no-op: zero southbound flow commands, and the opened
transaction is never committed, so no shared state changes. -/
theorem spec_C7 (st : RpcState) (dpid_old vmac_old vmac_new dcenter_new : String)
    (h : dcenter_new = st.dcenter) :
    redirect_local_flow st dpid_old vmac_old vmac_new dcenter_new = ([], false) := by
  rw [redirect_local_flow, if_pos h]

/-- C7 witness: a concrete self-redirect call issues nothing. -/
theorem spec_C7_witness :
    redirect_local_flow ⟨"1", "gw", fun _ => "ip", fun _ _ => "p"⟩ "00a" "vo" "vn" "1"
      = ([], false) :=
  spec_C7 ⟨"1", "gw", fun _ => "ip", fun _ _ => "p"⟩ "00a" "vo" "vn" "1" rfl

/-- C9: `create_vm_vmac` returns the switch prefix of `switch_vmac`
followed by the low byte of `vm_id` (rendered as two hex digits for
`vm_id mod 256`) and then the reserved zero byte `00`; in particular
`vm_id = 10` appends `0a` followed by `00`. -/
theorem spec_C9 :
    (∀ (switch_vmac : List Char) (vm_id : Nat),
      create_vm_vmac switch_vmac vm_id =
        get_swc_prefix switch_vmac ++ ':' :: byteToHex (vm_id % 256)
          ++ ':' :: "00".toList) ∧
    create_vm_vmac ("02:01:00:03:00:00".toList) 10 = "02:01:00:03:0a:00".toList := by
  constructor
  · intro switch_vmac vm_id
    rw [create_vm_vmac, and255_eq_mod]
  · decide
